import Mathlib

/-!
Verification development for the Aerospace-TFG repository
(`flights_one_sat_filter.py` and `flights_within_satcov_kml.py`).

The two scripts share their validation and coverage-classification code
verbatim; each Lean definition below names the script section it embeds.
Python floats are modelled as real numbers (`ℝ`) where the value feeds the
great-circle computation, and as rationals (`ℚ`) where only parsing is at
stake; the printed form of a float (Python `str`) is carried as an opaque
`String` where it is only concatenated into output text.
-/

namespace Aerospace

/-! ### Models of the Python primitives used by the validation code -/

/-- Accumulator for a run of decimal digits; fails on any non-digit. -/
def parseDigitsAux : List Char → Nat → Option Nat
  | [], acc => some acc
  | c :: cs, acc =>
    if c.isDigit then parseDigitsAux cs (acc * 10 + (c.toNat - 48)) else none

/-- A non-empty run of decimal digits, as a natural number. -/
def parseDigits (cs : List Char) : Option Nat :=
  match cs with
  | [] => none
  | _ :: _ => parseDigitsAux cs 0

/-- Model of Python `int(s)` on the string forms the scripts receive:
an optional sign followed by decimal digits.  (Underscores, surrounding
whitespace and non-decimal bases are outside the modelled subset; none of
the behaviour at stake depends on them.)  `none` models `ValueError`. -/
def pythonInt (s : String) : Option Int :=
  match s.toList with
  | '-' :: rest => (parseDigits rest).map (fun n => -(n : Int))
  | '+' :: rest => (parseDigits rest).map (fun n => (n : Int))
  | cs => (parseDigits cs).map (fun n => (n : Int))

/-- Splits a character list at its first dot, if any. -/
def breakAtDot : List Char → (List Char × Option (List Char))
  | [] => ([], none)
  | c :: rest =>
    if c = '.' then ([], some rest)
    else
      let p := breakAtDot rest
      (c :: p.1, p.2)

/-- A possibly empty digit run (Python allows `"1."` and `".5"`). -/
def parseDigitsOrEmpty (cs : List Char) : Option Nat :=
  match cs with
  | [] => some 0
  | _ :: _ => parseDigitsAux cs 0

/-- Unsigned part of a Python float literal: digits with an optional
fractional part, or a bare fractional part. -/
def parseUnsignedFloat (cs : List Char) : Option ℚ :=
  match breakAtDot cs with
  | (intPart, none) => (parseDigits intPart).map (fun n => (n : ℚ))
  | (intPart, some fracPart) =>
    if intPart = [] ∧ fracPart = [] then none
    else
      match parseDigitsOrEmpty intPart, parseDigitsOrEmpty fracPart with
      | some n, some f => some ((n : ℚ) + (f : ℚ) / (10 : ℚ) ^ fracPart.length)
      | _, _ => none

/-- Model of Python `float(s)` on decimal literals: an optional sign then
digits with an optional dot.  (Exponents, `inf`/`nan`, underscores and
whitespace are outside the modelled subset.)  `none` models `ValueError`. -/
def pythonFloat (s : String) : Option ℚ :=
  match s.toList with
  | '-' :: rest => (parseUnsignedFloat rest).map (fun q => -q)
  | '+' :: rest => parseUnsignedFloat rest
  | cs => parseUnsignedFloat cs

/-- Splits a character list on a separator character; the groups between
separators, in order, with empty groups preserved — the semantics of
Python `str.split` with a one-character separator argument. -/
def splitOnChar (sep : Char) : List Char → List (List Char)
  | [] => [[]]
  | c :: rest =>
    if c = sep then [] :: splitOnChar sep rest
    else
      match splitOnChar sep rest with
      | [] => [[c]]
      | g :: gs => (c :: g) :: gs

/-- Model of Python `s.split(sep)` for a one-character separator. -/
def pySplit (sep : Char) (s : String) : List String :=
  (splitOnChar sep s.toList).map String.mk

/-! ### Section 0.2.1 of both scripts: numerical values check

The `try` block parses, in order, the value after `-lat` with `float`,
the value after `-lon` with `float`, and the value after `-rad` with
`int`; the first `ValueError` aborts the run.  `none` models the
error-and-exit path. -/

/-- Embeds the `try` block of section 0.2.1 (identical in both scripts). -/
def numericalValuesCheck (latS lonS radS : String) : Option (ℚ × ℚ × Int) :=
  match pythonFloat latS with
  | none => none
  | some lat =>
    match pythonFloat lonS with
    | none => none
    | some lon =>
      match pythonInt radS with
      | none => none
      | some rad => some (lat, lon, rad)

/-! ### Section 0.2.2 of both scripts: time values check -/

/-- Outcome of one validation step: the check passes, the program prints
the error text and exits, or an uncaught Python exception aborts it. -/
inductive TimeCheck
  | passed
  | exitError
  | crash
  deriving DecidableEq

/-- Embeds section 0.2.2 (identical in both scripts):
`sat_time.split(":")` must have three fields, and the code then evaluates
`0 <= int(f[0]) < 24 and 0 <= int(f[1]) < 60 and 0 <= int(f[1]) < 60`
with Python short-circuiting.  The third conjunct repeats field 1, so
field 2 (the seconds) is never converted or range-checked.  An `int`
conversion failure here is an uncaught `ValueError` (the `try` block
ended with section 0.2.1), modelled as `crash`. -/
def timeValuesCheck (sat_time : String) : TimeCheck :=
  let parts := pySplit ':' sat_time
  if parts.length ≠ 3 then .exitError
  else
    match pythonInt (parts.getD 0 "") with
    | none => .crash
    | some h =>
      if 0 ≤ h ∧ h < 24 then
        match pythonInt (parts.getD 1 "") with
        | none => .crash
        | some m => if 0 ≤ m ∧ m < 60 then .passed else .exitError
      else .exitError

/-! ### Sections 0.1–0.2.6 of `flights_within_satcov_kml.py`: run driver
validation -/

/-- Model of the extension computed by `os.path.splitext` for the plain
file names the scripts receive (no directory separators or leading-dot
names are needed by any claim). -/
def fileExtension (s : String) : String :=
  let parts := pySplit '.' s
  if parts.length ≤ 1 then "" else "." ++ parts.getLastD ""

/-- Model of Python `s.startswith("-")`, the exact check section 0.2.5
makes on the output name. -/
def startsWithDash (s : String) : Bool :=
  match s.toList with
  | [] => false
  | c :: _ => c = '-'

/-- The value following a flag on the command line:
`sys.argv[sys.argv.index(flag) + 1]`.  `none` models `IndexError`. -/
def argValue (argv : List String) (flag : String) : Option String :=
  argv[argv.indexOf flag + 1]?

/-- The distinct exits of sections 0.1–0.2.6 of the KML script. -/
inductive ValFailure
  | usage
  | manArgMissing
  | badValues
  | badTime
  | geojsonBadExt
  | geojsonNotFile
  | csvBadExt
  | csvNotFile
  | crash
  deriving DecidableEq

/-- The configuration the KML script holds when section 0 completes and
the program goes on to load its input files. -/
structure KmlConfig where
  sat_lat : ℚ
  sat_lon : ℚ
  sat_radius : Int
  sat_time : String
  geojson_file : String
  flights_file : String
  output_name : String
  outputNameErrorPrinted : Bool
  radius_in_mn : Bool
  deriving DecidableEq

/-- Embeds sections 0.1–0.2.6 of `flights_within_satcov_kml.py` in their
source order, with `isFile` standing for `os.path.isfile`.  Section 0.2.5
prints `ERROR: output name is not valid` when `sys.argv[3]` starts with
`-` but contains no `sys.exit()` call, so the run continues: the model
records the printed error in `outputNameErrorPrinted` and still returns
`Except.ok`. -/
def validateKml (isFile : String → Bool) (argv : List String) :
    Except ValFailure KmlConfig :=
  if argv.length < 12 then .error .usage
  else if !(argv.contains "-lat") then .error .manArgMissing
  else if !(argv.contains "-lon") then .error .manArgMissing
  else if !(argv.contains "-time") then .error .manArgMissing
  else if !(argv.contains "-rad") then .error .manArgMissing
  else
    match argValue argv "-lat" with
    | none => .error .crash
    | some latS =>
      match pythonFloat latS with
      | none => .error .badValues
      | some lat =>
        match argValue argv "-lon" with
        | none => .error .crash
        | some lonS =>
          match pythonFloat lonS with
          | none => .error .badValues
          | some lon =>
            match argValue argv "-rad" with
            | none => .error .crash
            | some radS =>
              match pythonInt radS with
              | none => .error .badValues
              | some rad =>
                match argValue argv "-time" with
                | none => .error .crash
                | some timeS =>
                  match timeValuesCheck timeS with
                  | .crash => .error .crash
                  | .exitError => .error .badTime
                  | .passed =>
                    let g := argv.getD 1 ""
                    if isFile g then
                      if fileExtension g ≠ ".geojson" then .error .geojsonBadExt
                      else
                        let c := argv.getD 2 ""
                        if isFile c then
                          if fileExtension c ≠ ".csv" then .error .csvBadExt
                          else
                            let o := argv.getD 3 ""
                            .ok { sat_lat := lat
                                  sat_lon := lon
                                  sat_radius := rad
                                  sat_time := timeS
                                  geojson_file := g
                                  flights_file := c
                                  output_name := o
                                  outputNameErrorPrinted := startsWithDash o
                                  radius_in_mn := !(argv.contains "-km") }
                        else .error .csvNotFile
                    else .error .geojsonNotFile

/-! ### Section 2.5.2 of `flights_within_satcov_kml.py`: flight marker
emission

The script emits, for each accepted flight, a placemark whose coordinate
content is `str(flight_pos[1]) + ',' + str(flight_pos[0]) + ',0'` between
the `coordinates` tags — longitude (`flight_pos[1]`) first.  The printed
forms of the two floats are carried as strings. -/

/-- The text the script places between the `coordinates` tags of a flight
placemark: longitude first, then latitude, then the literal altitude 0. -/
def pointCoordsContent (latS lonS : String) : String :=
  lonS ++ "," ++ latS ++ ",0"

/-- The full flight placemark of section 2.5.2, exactly as concatenated by
the source, including the stray `s` the source appends right after the
closing `coordinates` tag. -/
def flightPlacemark (latS lonS : String) : String :=
  "\t<Placemark>\n\t\t<styleUrl>#Flight</styleUrl>\n\t\t<Point>\n\t\t\t<coordinates>"
    ++ pointCoordsContent latS lonS
    ++ "</coordinates>s\n\t\t</Point>\n\t</Placemark>\n"

/-- Modelled from the spec: the well-formed flight placemark required by
the specification's interface (§4.5/§9) — identical to the source's
except that the text ends exactly at the closing `coordinates` tag, with
no stray character after it. -/
def specFlightPlacemark (latS lonS : String) : String :=
  "\t<Placemark>\n\t\t<styleUrl>#Flight</styleUrl>\n\t\t<Point>\n\t\t\t<coordinates>"
    ++ pointCoordsContent latS lonS
    ++ "</coordinates>\n\t\t</Point>\n\t</Placemark>\n"

/-- Parses a coordinate-content string back into the record's
`(latitude, longitude)` pair, reading the target format's convention:
the first comma-separated component is the longitude, the second the
latitude, the third the altitude. -/
def parseCoordsContent (s : String) : Option (String × String) :=
  match splitOnChar ',' s.toList with
  | [lonC, latC, _] => some (String.mk latC, String.mk lonC)
  | _ => none

/-! ### Sections 2.2–2.4 of `flights_within_satcov_kml.py`: document
header, styles and region placemarks -/

/-- Section 2.2: XML prologue, document opening, title and `open` flag. -/
def kmlHeader (docName : String) : String :=
  "<?xml version=\"1.0\" encoding=\"UTF-8\"?>\n"
    ++ "<kml xmlns=\"http://www.opengis.net/kml/2.2\" "
    ++ "xmlns:gx=\"http://www.google.com/kml/ext/2.2\" "
    ++ "xmlns:kml=\"http://www.opengis.net/kml/2.2\" "
    ++ "xmlns:atom=\"http://www.w3.org/2005/Atom\">\n"
    ++ "<Document>\n"
    ++ "\t<name>" ++ docName ++ "</name>\n"
    ++ "\t<open>1</open>\n"

/-- Section 2.3.1: the FIR style block. -/
def firStyle : String :=
  "\t<Style id=\"FIR\">\n"
    ++ "\t\t<LineStyle>\n\t\t\t<color>FFFF0000</color>\n\t\t\t<width>1</width>\n\t\t</LineStyle>\n"
    ++ "\t\t<PolyStyle>\n\t\t\t<color>00FFFFFF</color>\n\t\t</PolyStyle>\n"
    ++ "\t</Style>\n"

/-- Section 2.3.2: the flight icon style block. -/
def flightStyle : String :=
  "\t<Style id=\"Flight\">\n"
    ++ "\t\t<IconStyle>\n\t\t\t<color>FFFFD600</color>\n\t\t\t<scale>1.3</scale>\n"
    ++ "\t\t\t<Icon>\n\t\t\t\t<href>http://maps.google.com/mapfiles/kml/shapes/shaded_dot.png</href>\n"
    ++ "\t\t\t</Icon>\n\t\t</IconStyle>\n"
    ++ "\t</Style>\n"

/-- Section 2.4.3: one `Data` entry per property, in insertion order;
property values are carried in their `str()` form. -/
def extendedDataText (props : List (String × String)) : String :=
  "\t\t<ExtendedData>\n"
    ++ String.join (props.map fun kv =>
        "\t\t\t<Data name=\"" ++ kv.1 ++ "\">\n\t\t\t\t<value>" ++ kv.2
          ++ "</value>\n\t\t\t</Data>\n")
    ++ "\t\t</ExtendedData>\n"

/-- Section 2.4.4: the ring listing, `str(p[0]) + "," + str(p[1]) + ",0 "`
per vertex; a vertex is carried as the pair of printed forms of
`polygon[0]` (the longitude) and `polygon[1]` (the latitude). -/
def ringCoordsText (ring : List (String × String)) : String :=
  String.join (ring.map fun p => p.1 ++ "," ++ p.2 ++ ",0 ")

/-- Sections 2.4.1–2.4.5: one full FIR placemark, given the value found
under the `FIRname` key. -/
def firPlacemarkText (firName : String) (props : List (String × String))
    (ring : List (String × String)) : String :=
  "\t<Placemark>\n\t\t<name>" ++ firName ++ "</name>\n"
    ++ "\t\t<styleUrl>#FIR</styleUrl>\n"
    ++ extendedDataText props
    ++ "\t\t<Polygon>\n\t\t\t<outerBoundaryIs>\n\t\t\t\t<LinearRing>\n\t\t\t\t\t<coordinates>\n\t\t\t\t\t\t"
    ++ ringCoordsText ring
    ++ "\n\t\t\t\t\t</coordinates>\n\t\t\t\t</LinearRing>\n\t\t\t</outerBoundaryIs>\n\t\t</Polygon>\n"
    ++ "\t</Placemark>\n"

/-! ### `getFIRs` and the section 2.4 loop -/

/-- One GeoJSON feature as the script reads it: `geometry.coordinates`
(a list of rings, each a list of `[lon, lat]` vertices carried in printed
form) and the `properties` map (key order preserved). -/
structure GeoFeature where
  coordinates : List (List (String × String))
  properties : List (String × String)
  deriving DecidableEq

/-- Embeds `getFIRs`: appends `feature.geometry.coordinates[0]` and
`feature.properties` per feature.  A feature with no ring makes
`coordinates[0]` raise `IndexError`, aborting the whole load: `none`. -/
def getFIRs : List GeoFeature →
    Option (List (List (String × String)) × List (List (String × String)))
  | [] => some ([], [])
  | f :: fs =>
    match f.coordinates with
    | [] => none
    | ring :: _ =>
      match getFIRs fs with
      | none => none
      | some p => some (ring :: p.1, f.properties :: p.2)

/-- Embeds the section 2.4 loop over `range(len(polygons))`.  Each
iteration looks up `names[n_fir]["FIRname"]` first; a missing key raises
`KeyError` at that point, and the output file then holds exactly the text
flushed by the previous iterations' `writeKML` calls — the `Except.error`
value carries that flushed content. -/
def firLoop : List (List (String × String)) → List (List (String × String)) →
    String → Except String String
  | [], _, acc => .ok acc
  | _ :: _, [], acc => .error acc
  | ring :: rings, props :: names, acc =>
    match List.lookup "FIRname" props with
    | none => .error acc
    | some nm => firLoop rings names (acc ++ firPlacemarkText nm props ring)

/-! ### The distance evaluator

Both scripts call `geopy.distance.great_circle(sat_pos, flight_pos)` and
read either the `.nm` or the `.km` property.  The library computes a
central angle with `atan2(sqrt(...), ...)` over a spherical Earth of mean
radius 6371.009 km and derives nautical miles from kilometres by dividing
by 1.852; floats are modelled as real numbers. -/

/-- Python `math.atan2 y x`, the angle of the point `(x, y)`. -/
noncomputable def atan2 (y x : ℝ) : ℝ :=
  Complex.arg { re := x, im := y }

/-- Degrees to radians. -/
noncomputable def deg2rad (x : ℝ) : ℝ := x * (Real.pi / 180)

/-- The first `atan2` argument of the great-circle central angle. -/
noncomputable def gcY (lat1 lon1 lat2 lon2 : ℝ) : ℝ :=
  Real.sqrt ((Real.cos (deg2rad lat2) * Real.sin (deg2rad lon2 - deg2rad lon1)) ^ 2 +
    (Real.cos (deg2rad lat1) * Real.sin (deg2rad lat2) -
      Real.sin (deg2rad lat1) * Real.cos (deg2rad lat2) *
        Real.cos (deg2rad lon2 - deg2rad lon1)) ^ 2)

/-- The second `atan2` argument of the great-circle central angle. -/
noncomputable def gcX (lat1 lon1 lat2 lon2 : ℝ) : ℝ :=
  Real.sin (deg2rad lat1) * Real.sin (deg2rad lat2) +
    Real.cos (deg2rad lat1) * Real.cos (deg2rad lat2) *
      Real.cos (deg2rad lon2 - deg2rad lon1)

/-- The central angle computed by `geopy.distance.great_circle.measure`. -/
noncomputable def greatCircleAngle (lat1 lon1 lat2 lon2 : ℝ) : ℝ :=
  atan2 (gcY lat1 lon1 lat2 lon2) (gcX lat1 lon1 lat2 lon2)

/-- Reading of `great_circle(a, b).km`: the mean Earth radius 6371.009 km
times the central angle. -/
noncomputable def greatCircleKm (lat1 lon1 lat2 lon2 : ℝ) : ℝ :=
  6371.009 * greatCircleAngle lat1 lon1 lat2 lon2

/-- Reading of `great_circle(a, b).nm`: geopy derives nautical miles from
the single kilometre reading by dividing by 1.852. -/
noncomputable def greatCircleNm (lat1 lon1 lat2 lon2 : ℝ) : ℝ :=
  greatCircleKm lat1 lon1 lat2 lon2 / 1.852

/-! ### The coverage classifiers (section 1.4 and section 2.5.2)

Both scripts run, per flight of the time slice,
`if radius_in_mn and great_circle(sat, f).nm < sat_radius: accept`
`elif great_circle(sat, f).km < sat_radius: accept`;
the two copies are transcribed separately, one per script. -/

/-- The acceptance condition of the section 1.4 loop of
`flights_one_sat_filter.py`, with Python short-circuit semantics: the
`elif` branch runs exactly when the `if` condition is false. -/
def flightAcceptedOneSat (radius_in_mn : Bool)
    (sat_lat sat_lon flight_lat flight_lon sat_radius : ℝ) : Prop :=
  (radius_in_mn = true ∧
      greatCircleNm sat_lat sat_lon flight_lat flight_lon < sat_radius) ∨
  (¬(radius_in_mn = true ∧
      greatCircleNm sat_lat sat_lon flight_lat flight_lon < sat_radius) ∧
    greatCircleKm sat_lat sat_lon flight_lat flight_lon < sat_radius)

/-- The acceptance condition of the section 2.5.2 loop of
`flights_within_satcov_kml.py` — the same code, transcribed from its own
file. -/
def flightAcceptedKml (radius_in_mn : Bool)
    (sat_lat sat_lon flight_lat flight_lon sat_radius : ℝ) : Prop :=
  (radius_in_mn = true ∧
      greatCircleNm sat_lat sat_lon flight_lat flight_lon < sat_radius) ∨
  (¬(radius_in_mn = true ∧
      greatCircleNm sat_lat sat_lon flight_lat flight_lon < sat_radius) ∧
    greatCircleKm sat_lat sat_lon flight_lat flight_lon < sat_radius)

/-- The great-circle distance read in the run's selected unit. -/
noncomputable def distanceInUnit (radius_in_mn : Bool)
    (sat_lat sat_lon flight_lat flight_lon : ℝ) : ℝ :=
  if radius_in_mn then greatCircleNm sat_lat sat_lon flight_lat flight_lon
  else greatCircleKm sat_lat sat_lon flight_lat flight_lon

/-! ### Time-slice selection (section 1.3 and section 2.5.1) -/

/-- One row of the flights table: the time key in column 0, latitude in
column 1, longitude in column 2.  The float columns are carried as real
values; where emission needs their printed form, a `pyStr` function
standing for Python `str` is applied to them. -/
structure FlightRecord where
  time_instant : String
  lat : ℝ
  lon : ℝ

/-- Embeds `flights_df[flights_df.iloc[:,0] == sat_time]`: the rows whose
first column equals the requested instant, in their original order. -/
def selectSlice (rs : List FlightRecord) (t : String) : List FlightRecord :=
  rs.filter (fun r => r.time_instant == t)

/-- The user-supplied satellite parameters both scripts share after
validation. -/
structure SatSpec where
  sat_lat : ℝ
  sat_lon : ℝ
  sat_radius : ℝ
  radius_in_mn : Bool
  sat_time : String

open Classical in
/-- Boolean reading of the section 1.4 acceptance condition. -/
noncomputable def flightAcceptedOneSatB (spec : SatSpec) (r : FlightRecord) : Bool :=
  decide (flightAcceptedOneSat spec.radius_in_mn spec.sat_lat spec.sat_lon
    r.lat r.lon spec.sat_radius)

open Classical in
/-- Boolean reading of the section 2.5.2 acceptance condition. -/
noncomputable def flightAcceptedKmlB (spec : SatSpec) (r : FlightRecord) : Bool :=
  decide (flightAcceptedKml spec.radius_in_mn spec.sat_lat spec.sat_lon
    r.lat r.lon spec.sat_radius)

/-- Embeds sections 1.3–1.4 of `flights_one_sat_filter.py`: filter the
table by the requested instant, then count the accepted flights with the
`count = count + 1` loop. -/
noncomputable def oneSatCount (spec : SatSpec) (rs : List FlightRecord) : Nat :=
  (selectSlice rs spec.sat_time).foldl
    (fun count r => if flightAcceptedOneSatB spec r then count + 1 else count) 0

/-- Embeds sections 2.5.1–2.5.2 of `flights_within_satcov_kml.py`: filter
the table by the requested instant, then emit one placemark per accepted
flight, in slice order.  `pyStr` stands for Python `str` on floats. -/
noncomputable def kmlFlightSection (pyStr : ℝ → String) (spec : SatSpec)
    (rs : List FlightRecord) : List String :=
  (selectSlice rs spec.sat_time).foldl
    (fun acc r =>
      if flightAcceptedKmlB spec r then
        acc ++ [flightPlacemark (pyStr r.lat) (pyStr r.lon)]
      else acc) []

/-! ### The whole KML run (sections 1.2–2.6 of
`flights_within_satcov_kml.py`) -/

/-- How a KML run ends: a crash while loading the GeoJSON file (before
the output file is opened), a crash during document building (the output
file is left holding the content flushed so far), or normal completion. -/
inductive KmlRun
  | crashNoOutput
  | crashMidWrite (content : String)
  | completed (content : String)

/-- Embeds the KML script's main flow after validation: `getFIRs` (run
before the output file is opened at section 2.1), then header and styles,
then the FIR loop, then the flight loop and the footer. -/
noncomputable def runKml (pyStr : ℝ → String) (spec : SatSpec)
    (features : List GeoFeature) (flights : List FlightRecord)
    (docName : String) : KmlRun :=
  match getFIRs features with
  | none => .crashNoOutput
  | some p =>
    match firLoop p.1 p.2 (kmlHeader docName ++ firStyle ++ flightStyle) with
    | .error written => .crashMidWrite written
    | .ok body =>
      .completed (body ++ String.join (kmlFlightSection pyStr spec flights)
        ++ "</Document>\n</kml>\n")

/-! ## Supporting lemmas -/

theorem greatCircleAngle_nonneg (lat1 lon1 lat2 lon2 : ℝ) :
    0 ≤ greatCircleAngle lat1 lon1 lat2 lon2 := by
  unfold greatCircleAngle atan2
  exact Complex.arg_nonneg_iff.mpr (Real.sqrt_nonneg _)

theorem greatCircleKm_nonneg (lat1 lon1 lat2 lon2 : ℝ) :
    0 ≤ greatCircleKm lat1 lon1 lat2 lon2 := by
  unfold greatCircleKm
  have h := greatCircleAngle_nonneg lat1 lon1 lat2 lon2
  nlinarith

theorem greatCircleNm_nonneg (lat1 lon1 lat2 lon2 : ℝ) :
    0 ≤ greatCircleNm lat1 lon1 lat2 lon2 := by
  unfold greatCircleNm
  have h := greatCircleKm_nonneg lat1 lon1 lat2 lon2
  positivity

theorem greatCircleKm_eq_nm_mul (lat1 lon1 lat2 lon2 : ℝ) :
    greatCircleKm lat1 lon1 lat2 lon2 =
      greatCircleNm lat1 lon1 lat2 lon2 * 1.852 := by
  unfold greatCircleNm
  rw [div_mul_cancel₀]
  norm_num

theorem splitOnChar_append (sep : Char) (xs ys : List Char) (h : sep ∉ xs) :
    splitOnChar sep (xs ++ sep :: ys) = xs :: splitOnChar sep ys := by
  induction xs with
  | nil => simp [splitOnChar]
  | cons c cs ih =>
    have hc : c ≠ sep := fun hcc => h (hcc ▸ List.mem_cons_self c cs)
    have hcs : sep ∉ cs := fun hm => h (List.mem_cons_of_mem c hm)
    rw [List.cons_append]
    simp only [splitOnChar, hc, if_false]
    rw [ih hcs]

theorem foldl_count_eq_filter_length (p : FlightRecord → Bool)
    (l : List FlightRecord) :
    ∀ n : Nat,
      l.foldl (fun count r => if p r then count + 1 else count) n =
        n + (l.filter p).length := by
  induction l with
  | nil => intro n; simp
  | cons a l ih =>
    intro n
    by_cases h : p a
    · simp [List.foldl_cons, h, ih]
      omega
    · simp [List.foldl_cons, h, ih]

theorem foldl_emit_eq_filter_map (f : FlightRecord → String)
    (p : FlightRecord → Bool) (l : List FlightRecord) :
    ∀ acc : List String,
      l.foldl (fun acc r => if p r then acc ++ [f r] else acc) acc =
        acc ++ (l.filter p).map f := by
  induction l with
  | nil => intro acc; simp
  | cons a l ih =>
    intro acc
    by_cases h : p a
    · simp [List.foldl_cons, h, ih]
    · simp [List.foldl_cons, h, ih]

theorem getFIRs_eq_none (fs : List GeoFeature)
    (h : ∃ f ∈ fs, f.coordinates = []) : getFIRs fs = none := by
  induction fs with
  | nil => rcases h with ⟨f, hf, _⟩; cases hf
  | cons a l ih =>
    rcases h with ⟨f, hf, hc⟩
    rcases List.mem_cons.mp hf with h1 | h2
    · subst h1
      unfold getFIRs
      rw [hc]
    · unfold getFIRs
      cases hca : a.coordinates with
      | nil => rfl
      | cons r rest => rw [ih ⟨f, h2, hc⟩]

theorem getFIRs_eq_some (fs : List GeoFeature)
    (h : ∀ f ∈ fs, f.coordinates ≠ []) :
    ∃ ps, getFIRs fs = some (ps, fs.map (fun f => f.properties)) ∧
      ps.length = fs.length := by
  induction fs with
  | nil => exact ⟨[], rfl, rfl⟩
  | cons a l ih =>
    obtain ⟨ps, hps, hlen⟩ := ih (fun f hf => h f (List.mem_cons_of_mem a hf))
    cases hca : a.coordinates with
    | nil => exact absurd hca (h a (List.mem_cons_self a l))
    | cons r rest =>
      refine ⟨r :: ps, ?_, by simp [hlen]⟩
      unfold getFIRs
      rw [hca, hps]
      simp

theorem firLoop_error_of_missing_name (ns : List (List (String × String))) :
    ∀ (ps : List (List (String × String))) (acc : String),
      ps.length = ns.length →
      (∃ pr ∈ ns, List.lookup "FIRname" pr = none) →
      ∃ w d, firLoop ps ns acc = .error w ∧ w.data = acc.data ++ d := by
  induction ns with
  | nil =>
    intro ps acc _ h
    rcases h with ⟨pr, hpr, _⟩
    cases hpr
  | cons p ns ih =>
    intro ps acc hlen h
    cases ps with
    | nil => simp at hlen
    | cons r rs =>
      unfold firLoop
      cases hl : List.lookup "FIRname" p with
      | none => exact ⟨acc, [], rfl, by simp⟩
      | some nm =>
        have hbad : ∃ pr ∈ ns, List.lookup "FIRname" pr = none := by
          rcases h with ⟨pr, hpr, hnone⟩
          rcases List.mem_cons.mp hpr with h1 | h2
          · exact absurd hnone (h1 ▸ by rw [hl]; exact Option.noConfusion)
          · exact ⟨pr, h2, hnone⟩
        have hlen2 : rs.length = ns.length := by
          simpa using hlen
        obtain ⟨w, d, hw, hd⟩ :=
          ih rs (acc ++ firPlacemarkText nm p r) hlen2 hbad
        refine ⟨w, (firPlacemarkText nm p r).data ++ d, hw, ?_⟩
        rw [hd, String.data_append, List.append_assoc]

/-! ## Claim theorems -/

/-- C1: for every coverage spec with unit nautical miles or kilometres,
both scripts' classifiers accept a record exactly when the great-circle
distance from the center to the record, read in the selected unit, is
strictly below the radius; a record at exactly the radius is rejected.
The `elif` fallback branch of the unit dispatch never changes the
decision, because the kilometre reading is 1.852 times the non-negative
nautical-mile reading. -/
theorem coverage_accept_iff_distance_lt (u : Bool)
    (slat slon flat flon r : ℝ) :
    (flightAcceptedOneSat u slat slon flat flon r ↔
      distanceInUnit u slat slon flat flon < r) ∧
    (flightAcceptedKml u slat slon flat flon r ↔
      distanceInUnit u slat slon flat flon < r) ∧
    (distanceInUnit u slat slon flat flon = r →
      ¬ flightAcceptedOneSat u slat slon flat flon r) := by
  have key : flightAcceptedOneSat u slat slon flat flon r ↔
      distanceInUnit u slat slon flat flon < r := by
    cases u with
    | false => simp [flightAcceptedOneSat, distanceInUnit]
    | true =>
      simp only [flightAcceptedOneSat, distanceInUnit, if_true, eq_self_iff_true,
        true_and, not_lt]
      constructor
      · rintro (h | ⟨hn, hk⟩)
        · exact h
        · have hkm := greatCircleKm_eq_nm_mul slat slon flat flon
          have h0 := greatCircleNm_nonneg slat slon flat flon
          rw [hkm] at hk
          linarith
      · exact fun h => Or.inl h
  have keq : flightAcceptedKml u slat slon flat flon r ↔
      flightAcceptedOneSat u slat slon flat flon r := Iff.rfl
  refine ⟨key, keq.trans key, fun he hacc => ?_⟩
  have := key.mp hacc
  rw [he] at this
  exact lt_irrefl r this

/-- C9: the kilometre reading of the distance evaluator equals the
nautical-mile reading times 1.852 (exactly, in the real-number model of
the floats, since geopy derives both from the single mean-Earth-radius
constant), and consequently a given separation compares identically
against a radius expressed in either unit. -/
theorem unit_consistency (slat slon flat flon : ℝ) :
    greatCircleKm slat slon flat flon =
      greatCircleNm slat slon flat flon * 1.852 ∧
    ∀ r : ℝ, (greatCircleNm slat slon flat flon < r ↔
      greatCircleKm slat slon flat flon < r * 1.852) := by
  refine ⟨greatCircleKm_eq_nm_mul slat slon flat flon, fun r => ?_⟩
  rw [greatCircleKm_eq_nm_mul slat slon flat flon]
  exact (mul_lt_mul_right (by norm_num)).symm

/-- C10: on the same time slice and satellite parameters, the count the
filter-only script prints equals the number of flight placemarks the
overlay script emits — the two scripts run the same acceptance code over
the same slice. -/
theorem count_eq_marker_count (pyStr : ℝ → String) (spec : SatSpec)
    (rs : List FlightRecord) :
    oneSatCount spec rs = (kmlFlightSection pyStr spec rs).length := by
  unfold oneSatCount kmlFlightSection
  rw [foldl_count_eq_filter_length, foldl_emit_eq_filter_map]
  have hpred : flightAcceptedKmlB spec = flightAcceptedOneSatB spec := rfl
  rw [hpred]
  simp

/-- C8: the time slice is exactly the records whose `time_instant` equals
the requested value, in their original relative order; slices for two
distinct instants are disjoint; every record lands in the slice of its own
instant (so the union of slices over all instants is the full record set);
and an empty slice yields a zero count and zero emitted markers. -/
theorem slice_exact_disjoint_complete (rs : List FlightRecord)
    (t t' : String) (h : t ≠ t') (pyStr : ℝ → String) (spec : SatSpec) :
    (∀ r ∈ selectSlice rs t, r.time_instant = t) ∧
    List.Sublist (selectSlice rs t) rs ∧
    (∀ r ∈ rs, r.time_instant = t → r ∈ selectSlice rs t) ∧
    (∀ r ∈ rs, r ∈ selectSlice rs r.time_instant) ∧
    (∀ r, r ∈ selectSlice rs t → r ∉ selectSlice rs t') ∧
    (selectSlice rs spec.sat_time = [] →
      oneSatCount spec rs = 0 ∧ kmlFlightSection pyStr spec rs = []) := by
  refine ⟨?_, ?_, ?_, ?_, ?_, ?_⟩
  · intro r hr
    have hm : r ∈ rs.filter (fun r => r.time_instant == t) := hr
    exact beq_iff_eq.mp (List.mem_filter.mp hm).2
  · exact List.filter_sublist rs
  · intro r hr ht
    exact List.mem_filter.mpr ⟨hr, beq_iff_eq.mpr ht⟩
  · intro r hr
    exact List.mem_filter.mpr ⟨hr, beq_iff_eq.mpr rfl⟩
  · intro r hr hr'
    have hm : r ∈ rs.filter (fun r => r.time_instant == t) := hr
    have hm' : r ∈ rs.filter (fun r => r.time_instant == t') := hr'
    have h1 : r.time_instant = t := beq_iff_eq.mp (List.mem_filter.mp hm).2
    have h2 : r.time_instant = t' := beq_iff_eq.mp (List.mem_filter.mp hm').2
    exact h (h1 ▸ h2)
  · intro hempty
    unfold oneSatCount kmlFlightSection
    rw [hempty]
    exact ⟨rfl, rfl⟩

/-- Witness for C8 at a concrete record set and two concrete distinct
instants; the satellite spec requests an instant matching no record, so
the empty-slice conjunct applies concretely. -/
theorem slice_exact_disjoint_complete_check :
    (∀ r ∈ selectSlice [⟨"12:00:00", 1, 2⟩] "12:00:00",
      r.time_instant = "12:00:00") ∧
    List.Sublist (selectSlice [⟨"12:00:00", 1, 2⟩] "12:00:00")
      [⟨"12:00:00", 1, 2⟩] ∧
    (∀ r ∈ [(⟨"12:00:00", 1, 2⟩ : FlightRecord)], r.time_instant = "12:00:00" →
      r ∈ selectSlice [⟨"12:00:00", 1, 2⟩] "12:00:00") ∧
    (∀ r ∈ [(⟨"12:00:00", 1, 2⟩ : FlightRecord)],
      r ∈ selectSlice [⟨"12:00:00", 1, 2⟩] r.time_instant) ∧
    (∀ r, r ∈ selectSlice [⟨"12:00:00", 1, 2⟩] "12:00:00" →
      r ∉ selectSlice [⟨"12:00:00", 1, 2⟩] "13:00:00") ∧
    (selectSlice [⟨"12:00:00", 1, 2⟩] "09:30:00" = [] →
      oneSatCount ⟨0, 0, 1000, true, "09:30:00"⟩ [⟨"12:00:00", 1, 2⟩] = 0 ∧
      kmlFlightSection (fun _ => "") ⟨0, 0, 1000, true, "09:30:00"⟩
        [⟨"12:00:00", 1, 2⟩] = []) :=
  slice_exact_disjoint_complete [⟨"12:00:00", 1, 2⟩] "12:00:00" "13:00:00"
    (by decide) (fun _ => "") ⟨0, 0, 1000, true, "09:30:00"⟩

/-- C2: the time check of section 0.2.2 range-checks the minutes field
twice and the seconds field never.  An out-of-range hours or minutes
field (e.g. `"25:61:00"`) is rejected as the claim states, but a time
string whose seconds field is out of range (`"12:00:99"`) passes the
check, and the run driver then proceeds past validation with it — the
code contradicts the claimed strict `HH:MM:SS` range check. -/
theorem time_seconds_field_never_checked :
    timeValuesCheck "25:61:00" = TimeCheck.exitError ∧
    timeValuesCheck "12:61:00" = TimeCheck.exitError ∧
    timeValuesCheck "12:00:99" = TimeCheck.passed ∧
    Except.map (fun cfg => cfg.sat_time)
      (validateKml (fun _ => true)
        ["prog", "a.geojson", "b.csv", "out.kml", "-lat", "1.0", "-lon", "2.0",
         "-time", "12:00:99", "-rad", "100"]) = Except.ok "12:00:99" := by
  refine ⟨by decide, by decide, by decide, rfl⟩

/-- C5 counterexample: the radius string is parsed with Python `int`,
so `"1000.5"` — a positive float, which the claim says is a valid
radius — fails the numerical-values check, while the non-positive radius
string `"-5"` passes it; no `radius > 0` invariant is established. -/
theorem radius_check_counterexample :
    pythonFloat "1000.5" = some (2001 / 2 : ℚ) ∧
    (0 : ℚ) < 2001 / 2 ∧
    numericalValuesCheck "1.0" "2.0" "1000.5" = none ∧
    Option.map (fun v => v.2.2) (numericalValuesCheck "1.0" "2.0" "-5") =
      some (-5) := by
  refine ⟨?_, by norm_num, rfl, rfl⟩
  have h : pythonFloat "1000.5" = some ((1000 : ℚ) + 5 / 10 ^ 1) := rfl
  rw [h]
  norm_num

/-- C5 amended: with parseable latitude and longitude strings, the
section 0.2.1 check accepts the run exactly when the radius string parses
as a Python integer — of any sign, with no positivity requirement — and
it rejects every non-integer numeric string such as `"1000.5"`. -/
theorem radius_check_accepts_exactly_ints (latS lonS radS : String)
    (lat lon : ℚ) (r : Int)
    (hlat : pythonFloat latS = some lat) (hlon : pythonFloat lonS = some lon) :
    numericalValuesCheck latS lonS radS = some (lat, lon, r) ↔
      pythonInt radS = some r := by
  unfold numericalValuesCheck
  rw [hlat, hlon]
  cases h : pythonInt radS with
  | none => simp
  | some a => simp [Prod.ext_iff]

/-- Witness for the amended C5 at the concrete negative radius string
`"-5"`. -/
theorem radius_check_accepts_exactly_ints_check :
    numericalValuesCheck "1.0" "2.0" "-5" = some (1, 2, -5) ↔
      pythonInt "-5" = some (-5) :=
  radius_check_accepts_exactly_ints "1.0" "2.0" "-5" 1 2 (-5)
    (by have h : pythonFloat "1.0" = some ((1 : ℚ) + 0 / 10 ^ 1) := rfl
        rw [h]; norm_num)
    (by have h : pythonFloat "2.0" = some ((2 : ℚ) + 0 / 10 ^ 1) := rfl
        rw [h]; norm_num)

/-- C6: the output-name check of section 0.2.5 prints its error but
contains no `sys.exit()`, so a run whose output-file argument starts with
`-` sails through validation — `validateKml` returns `Except.ok` with the
error merely recorded as printed — and the program goes on to load data
and write output, contradicting the claim that every validation failure
is fatal at the point it is detected. -/
theorem output_name_check_not_fatal :
    Except.map (fun cfg => (cfg.outputNameErrorPrinted, cfg.output_name))
      (validateKml (fun _ => true)
        ["prog", "a.geojson", "b.csv", "-bad.kml", "-lat", "1.0", "-lon", "2.0",
         "-time", "12:00:00", "-rad", "100"]) =
      Except.ok (true, "-bad.kml") := rfl

/-- C3: the marker emitted for an accepted record places the record's
longitude first and latitude second in the coordinate triple, between the
`coordinates` tags; parsing the emitted position back under the
longitude-first convention recovers exactly the source record's
`(latitude, longitude)` pair, not a swapped pair.  The hypotheses say the
printed float forms contain no comma, which Python `str` of a float
guarantees. -/
theorem marker_coordinate_roundtrip (latS lonS : String)
    (h1 : ',' ∉ latS.toList) (h2 : ',' ∉ lonS.toList) :
    parseCoordsContent (pointCoordsContent latS lonS) = some (latS, lonS) ∧
    flightPlacemark latS lonS =
      "\t<Placemark>\n\t\t<styleUrl>#Flight</styleUrl>\n\t\t<Point>\n\t\t\t<coordinates>"
        ++ pointCoordsContent latS lonS
        ++ "</coordinates>s\n\t\t</Point>\n\t</Placemark>\n" := by
  refine ⟨?_, rfl⟩
  have hc : ("," : String).data = [','] := rfl
  have hc0 : (",0" : String).data = [',', '0'] := rfl
  have hlist : (lonS ++ "," ++ latS ++ ",0").toList =
      lonS.toList ++ ',' :: (latS.toList ++ ',' :: ['0']) := by
    simp [String.toList, String.data_append, hc, hc0]
  unfold parseCoordsContent pointCoordsContent
  rw [hlist, splitOnChar_append ',' _ _ h2, splitOnChar_append ',' _ _ h1]
  rfl

/-- Witness for C3 at the concrete record of the specification's
round-trip test, latitude 10 and longitude 20. -/
theorem marker_coordinate_roundtrip_check :
    parseCoordsContent (pointCoordsContent "10" "20") = some ("10", "20") :=
  (marker_coordinate_roundtrip "10" "20" (by decide) (by decide)).1

/-- C4: the marker entry the source emits is not well-formed — evaluating
the emission at a concrete accepted record shows a stray `s` right after
the closing `coordinates` tag, so the coordinate text does not end at the
closing tag as the claim requires; the source differs from the
spec-modelled well-formed entry exactly there. -/
theorem marker_entry_stray_char :
    flightPlacemark "10" "20" =
      "\t<Placemark>\n\t\t<styleUrl>#Flight</styleUrl>\n\t\t<Point>\n\t\t\t<coordinates>20,10,0</coordinates>s\n\t\t</Point>\n\t</Placemark>\n" ∧
    flightPlacemark "10" "20" ≠ specFlightPlacemark "10" "20" := by
  exact ⟨rfl, by decide⟩

/-- C7 counterexample: a boundary feature that has a usable ring but
lacks the `FIRname` attribute is not rejected during region loading;
the run crashes later, inside document building, and the output file is
left holding the already-flushed header and style blocks — a partially
written output document. -/
theorem region_label_crash_leaves_output :
    runKml (fun _ => "0") ⟨0, 0, 1000, true, "12:00:00"⟩
        [⟨[[("0", "0")]], [("name", "TEST")]⟩] [] "out.kml" =
      KmlRun.crashMidWrite (kmlHeader "out.kml" ++ firStyle ++ flightStyle) ∧
    kmlHeader "out.kml" ++ firStyle ++ flightStyle ≠ "" := by
  exact ⟨rfl, by decide⟩

/-- C7 amended: a feature lacking a usable outer ring aborts the run
while the boundary file is being loaded, before the output file is
opened, so no output is written; but a feature lacking the `FIRname`
label is not detected at load time — the run fails only during document
building, and the output file is left holding the flushed header and
style blocks (and any regions already written). -/
theorem region_load_failures (pyStr : ℝ → String) (spec : SatSpec)
    (features : List GeoFeature) (flights : List FlightRecord)
    (docName : String) :
    ((∃ f ∈ features, f.coordinates = []) →
      runKml pyStr spec features flights docName = KmlRun.crashNoOutput) ∧
    ((∀ f ∈ features, f.coordinates ≠ []) →
      (∃ f ∈ features, List.lookup "FIRname" f.properties = none) →
      ∃ w d, runKml pyStr spec features flights docName =
          KmlRun.crashMidWrite w ∧
        w.data = (kmlHeader docName ++ firStyle ++ flightStyle).data ++ d) := by
  constructor
  · intro h
    simp only [runKml, getFIRs_eq_none features h]
  · intro hall hbad
    obtain ⟨ps, hps, hlen⟩ := getFIRs_eq_some features hall
    have hbad2 : ∃ pr ∈ features.map (fun f => f.properties),
        List.lookup "FIRname" pr = none := by
      obtain ⟨f, hf, hn⟩ := hbad
      exact ⟨f.properties, List.mem_map_of_mem _ hf, hn⟩
    have hlen2 : ps.length = (features.map (fun f => f.properties)).length := by
      simp [hlen]
    obtain ⟨w, d, hw, hd⟩ := firLoop_error_of_missing_name
      (features.map (fun f => f.properties)) ps
      (kmlHeader docName ++ firStyle ++ flightStyle) hlen2 hbad2
    refine ⟨w, d, ?_, hd⟩
    simp only [runKml, hps, hw]

/-- Witness for the amended C7: a concrete ringless feature aborts the
load with no output written, and a concrete feature with a ring but no
`FIRname` key crashes mid-write with the header and styles already in the
output file. -/
theorem region_load_failures_check :
    runKml (fun _ => "") ⟨0, 0, 1, true, "12:00:00"⟩
        [⟨[], [("FIRname", "A")]⟩] [] "o.kml" = KmlRun.crashNoOutput ∧
    (∃ w d, runKml (fun _ => "") ⟨0, 0, 1, true, "12:00:00"⟩
        [⟨[[("0", "1")]], [("name", "TEST")]⟩] [] "o.kml" =
      KmlRun.crashMidWrite w ∧
      w.data = (kmlHeader "o.kml" ++ firStyle ++ flightStyle).data ++ d) :=
  ⟨(region_load_failures (fun _ => "") ⟨0, 0, 1, true, "12:00:00"⟩
        [⟨[], [("FIRname", "A")]⟩] [] "o.kml").1
      ⟨⟨[], [("FIRname", "A")]⟩, List.mem_cons_self _ _, rfl⟩,
    (region_load_failures (fun _ => "") ⟨0, 0, 1, true, "12:00:00"⟩
        [⟨[[("0", "1")]], [("name", "TEST")]⟩] [] "o.kml").2
      (by decide)
      ⟨⟨[[("0", "1")]], [("name", "TEST")]⟩, List.mem_cons_self _ _, rfl⟩⟩

end Aerospace
